import Mathlib

/-!
Verification of the CosmoRisk physics engine core (src-tauri/src/physics_engine.rs).

Modelling conventions: Rust `f64` values are embedded as exact rationals `ℚ`.
Transcendental library routines (`sqrt`, `sin`, `cos`, `atan2`, `ln`, `log10`,
`powf(0.25)`) and the standard hasher are not definable over `ℚ`, so they are
passed as explicit function parameters bundled in an `Ops` record; every
theorem below holds for an arbitrary `Ops` unless it instantiates one.
Machine-integer arithmetic (the `u64` LCG state) is `Nat` reduced `% 2 ^ 64`.
Rust decimal literals are read as exact decimal rationals.
-/

namespace CosmoRisk

/-- Gravitational constant, 6.67430e-11. -/
def G : ℚ := 667430 / 10 ^ 16

/-- Astronomical unit in meters, 1.495978707e11. -/
def AU : ℚ := 149597870700

/-- Sun gravitational parameter, 1.32712440018e20. -/
def MU_SUN : ℚ := 132712440018 * 10 ^ 9

/-- Earth gravitational parameter, 3.986004418e14. -/
def MU_EARTH : ℚ := 3986004418 * 10 ^ 5

/-- Sun mass, 1.989e30 kg. -/
def MASS_SUN : ℚ := 1989 * 10 ^ 27

/-- Earth mass, 5.972e24 kg. -/
def MASS_EARTH : ℚ := 5972 * 10 ^ 21

/-- Moon mass, 7.342e22 kg. -/
def MASS_MOON : ℚ := 7342 * 10 ^ 19

/-- Earth J2 coefficient, 1.08263e-3. -/
def J2_EARTH : ℚ := 108263 / 10 ^ 8

/-- Earth equatorial radius, 6.378137e6 m. -/
def R_EARTH : ℚ := 6378137

/-- Solar radiation pressure at 1 AU, 4.56e-6 N/m^2. -/
def SOLAR_PRESSURE_1AU : ℚ := 456 / 10 ^ 8

/-- Speed of light, m/s. -/
def C : ℚ := 299792458

/-- Stefan-Boltzmann constant, 5.670374419e-8. -/
def STEFAN_BOLTZMANN : ℚ := 5670374419 / 10 ^ 17

/-- Solar luminosity, 3.828e26 W. -/
def SOLAR_LUMINOSITY : ℚ := 3828 * 10 ^ 23

/-- Surface emissivity for asteroids, 0.9. -/
def SURFACE_EMISSIVITY : ℚ := 9 / 10

/-- Default asteroid density (asteroid_density::DEFAULT), 2000 kg/m^3. -/
def DENSITY_DEFAULT : ℚ := 2000

/-- The f64 value of std::f64::consts::PI, exactly 884279719003555 / 2^48. -/
def PI : ℚ := 884279719003555 / 281474976710656

/-- Largest finite f64 (f64::MAX), (2^53 - 1) * 2^971. -/
def F64_MAX : ℚ := (2 ^ 53 - 1) * 2 ^ 971

/-- Transcendental and hashing primitives of the Rust standard library, left
abstract: each field stands for the corresponding f64 routine. -/
structure Ops where
  sqrt : ℚ → ℚ
  sin : ℚ → ℚ
  cos : ℚ → ℚ
  atan2 : ℚ → ℚ → ℚ
  ln : ℚ → ℚ
  log10 : ℚ → ℚ
  pow_quarter : ℚ → ℚ
  hashString : String → ℕ

/-- Struct Vector3 { x, y, z : f64 }. -/
structure Vector3 where
  x : ℚ
  y : ℚ
  z : ℚ
deriving DecidableEq

/-- Vector3::new. -/
def Vector3.new (x y z : ℚ) : Vector3 := ⟨x, y, z⟩

/-- Vector3::zero. -/
def Vector3.zero : Vector3 := ⟨0, 0, 0⟩

/-- Vector3::magnitude, sqrt of the sum of squares. -/
def Vector3.magnitude (ops : Ops) (v : Vector3) : ℚ :=
  ops.sqrt (v.x * v.x + v.y * v.y + v.z * v.z)

/-- Vector3::normalize: componentwise division by the magnitude when it
exceeds 1e-15, zero otherwise. -/
def Vector3.normalize (ops : Ops) (v : Vector3) : Vector3 :=
  let mag := v.magnitude ops
  if mag > 1 / 10 ^ 15 then ⟨v.x / mag, v.y / mag, v.z / mag⟩ else Vector3.zero

/-- Vector3::dot. -/
def Vector3.dot (v other : Vector3) : ℚ :=
  v.x * other.x + v.y * other.y + v.z * other.z

/-- Vector3::cross. -/
def Vector3.cross (v other : Vector3) : Vector3 :=
  ⟨v.y * other.z - v.z * other.y,
   v.z * other.x - v.x * other.z,
   v.x * other.y - v.y * other.x⟩

/-- Vector3::scale. -/
def Vector3.scale (v : Vector3) (s : ℚ) : Vector3 := ⟨v.x * s, v.y * s, v.z * s⟩

/-- Vector3::add. -/
def Vector3.add (v other : Vector3) : Vector3 :=
  ⟨v.x + other.x, v.y + other.y, v.z + other.z⟩

/-- Vector3::sub. -/
def Vector3.sub (v other : Vector3) : Vector3 :=
  ⟨v.x - other.x, v.y - other.y, v.z - other.z⟩

/-- Struct StateVector { position, velocity }. -/
structure StateVector where
  position : Vector3
  velocity : Vector3
deriving DecidableEq

/-- StateVector::new. -/
def StateVector.new (position velocity : Vector3) : StateVector := ⟨position, velocity⟩

/-- StateVector::zero. -/
def StateVector.zero : StateVector := ⟨Vector3.zero, Vector3.zero⟩

/-- Struct OrbitalElements. -/
structure OrbitalElements where
  semi_major_axis : ℚ
  eccentricity : ℚ
  inclination : ℚ
  longitude_ascending_node : ℚ
  argument_perihelion : ℚ
  mean_anomaly : ℚ
  epoch : ℚ
deriving DecidableEq

/-- Loop body of solve_kepler_equation: up to `fuel` Newton-Raphson updates,
stopping early once |delta| < 1e-12 (the update is applied before the test,
as in the source). -/
def solveKeplerGo (ops : Ops) (mean_anomaly eccentricity : ℚ) : ℕ → ℚ → ℚ
  | 0, e_anom => e_anom
  | fuel + 1, e_anom =>
    let f := e_anom - eccentricity * ops.sin e_anom - mean_anomaly
    let f_prime := 1 - eccentricity * ops.cos e_anom
    let delta := f / f_prime
    let e_next := e_anom - delta
    if |delta| < 1 / 10 ^ 12 then e_next else solveKeplerGo ops mean_anomaly eccentricity fuel e_next

/-- Function solve_kepler_equation: Newton-Raphson from E0 = M, at most 50
iterations. -/
def solve_kepler_equation (ops : Ops) (mean_anomaly eccentricity : ℚ) : ℚ :=
  solveKeplerGo ops mean_anomaly eccentricity 50 mean_anomaly

/-- OrbitalElements::to_state_vector: Keplerian elements to Cartesian state. -/
def OrbitalElements.to_state_vector (el : OrbitalElements) (ops : Ops) (mu : ℚ) : StateVector :=
  let a := el.semi_major_axis
  let e := el.eccentricity
  let i := el.inclination
  let omega_big := el.longitude_ascending_node
  let omega_small := el.argument_perihelion
  let m := el.mean_anomaly
  let eccentric_anomaly := solve_kepler_equation ops m e
  let cos_e := ops.cos eccentric_anomaly
  let true_anomaly := 2 *
    ops.atan2 (ops.sqrt (1 + e) * ops.sin (eccentric_anomaly / 2))
      (ops.sqrt (1 - e) * ops.cos (eccentric_anomaly / 2))
  let r := a * (1 - e * cos_e)
  let cos_nu := ops.cos true_anomaly
  let sin_nu := ops.sin true_anomaly
  let x_orb := r * cos_nu
  let y_orb := r * sin_nu
  let sqrt_mu_p := ops.sqrt (mu / (a * (1 - e * e)))
  let vx_orb := -sqrt_mu_p * sin_nu
  let vy_orb := sqrt_mu_p * (e + cos_nu)
  let cos_omega := ops.cos omega_big
  let sin_omega := ops.sin omega_big
  let cos_w := ops.cos omega_small
  let sin_w := ops.sin omega_small
  let cos_i := ops.cos i
  let sin_i := ops.sin i
  let r11 := cos_omega * cos_w - sin_omega * sin_w * cos_i
  let r12 := -cos_omega * sin_w - sin_omega * cos_w * cos_i
  let r21 := sin_omega * cos_w + cos_omega * sin_w * cos_i
  let r22 := -sin_omega * sin_w + cos_omega * cos_w * cos_i
  let r31 := sin_w * sin_i
  let r32 := cos_w * sin_i
  let position := Vector3.new (r11 * x_orb + r12 * y_orb) (r21 * x_orb + r22 * y_orb)
    (r31 * x_orb + r32 * y_orb)
  let velocity := Vector3.new (r11 * vx_orb + r12 * vy_orb) (r21 * vx_orb + r22 * vy_orb)
    (r31 * vx_orb + r32 * vy_orb)
  ⟨position, velocity⟩

/-- Enum BodyType. -/
inductive BodyType where
  | Star
  | Planet
  | Moon
  | Asteroid
  | Spacecraft
deriving DecidableEq

/-- Struct CelestialBody. -/
structure CelestialBody where
  id : String
  name : String
  mass : ℚ
  radius : ℚ
  state : StateVector
  body_type : BodyType
  cross_section_area : ℚ
  reflectivity : ℚ
deriving DecidableEq

/-- CelestialBody::sun. -/
def CelestialBody.sun : CelestialBody :=
  { id := "sun"
    name := "Sun"
    mass := MASS_SUN
    radius := 696 * 10 ^ 6
    state := StateVector.zero
    body_type := BodyType.Star
    cross_section_area := 0
    reflectivity := 0 }

/-- CelestialBody::earth. -/
def CelestialBody.earth (ops : Ops) (julian_date : ℚ) : CelestialBody :=
  let mean_anomaly := 2 * PI * ((julian_date - 2451545) / (1461 / 4))
  let elements : OrbitalElements :=
    { semi_major_axis := AU
      eccentricity := 167 / 10 ^ 4
      inclination := 0
      longitude_ascending_node := 0
      argument_perihelion := (1029 / 10) * PI / 180
      mean_anomaly := mean_anomaly
      epoch := julian_date }
  { id := "earth"
    name := "Earth"
    mass := MASS_EARTH
    radius := R_EARTH
    state := elements.to_state_vector ops MU_SUN
    body_type := BodyType.Planet
    cross_section_area := 0
    reflectivity := 0 }

/-- CelestialBody::moon. -/
def CelestialBody.moon (ops : Ops) (earth_state : StateVector) (julian_date : ℚ) : CelestialBody :=
  let mean_anomaly := 2 * PI * ((julian_date - 2451545) / (273 / 10))
  let moon_distance : ℚ := 3844 * 10 ^ 5
  let moon_velocity : ℚ := 1022
  let pos := earth_state.position.add
    (Vector3.new (moon_distance * ops.cos mean_anomaly) (moon_distance * ops.sin mean_anomaly) 0)
  let vel := earth_state.velocity.add
    (Vector3.new (-moon_velocity * ops.sin mean_anomaly) (moon_velocity * ops.cos mean_anomaly) 0)
  { id := "moon"
    name := "Moon"
    mass := MASS_MOON
    radius := 17374 * 10 ^ 2
    state := StateVector.new pos vel
    body_type := BodyType.Moon
    cross_section_area := 0
    reflectivity := 0 }

/-- Struct VelocityVerletIntegrator: timestep and perturbation toggles. -/
structure VelocityVerletIntegrator where
  dt : ℚ
  enable_j2 : Bool
  enable_srp : Bool
  enable_yarkovsky : Bool
deriving DecidableEq

/-- VelocityVerletIntegrator::new: all perturbations default on. -/
def VelocityVerletIntegrator.new (dt : ℚ) : VelocityVerletIntegrator :=
  { dt := dt, enable_j2 := true, enable_srp := true, enable_yarkovsky := true }

/-- VelocityVerletIntegrator::calculate_j2_perturbation. -/
def VelocityVerletIntegrator.calculate_j2_perturbation (ops : Ops)
    (body earth : CelestialBody) : Vector3 :=
  let r_vec := body.state.position.sub earth.state.position
  let r := r_vec.magnitude ops
  if r > 10 ^ 9 ∨ r < R_EARTH then Vector3.zero
  else
    let r2 := r * r
    let r5 := r2 * r2 * r
    let re2 := R_EARTH * R_EARTH
    let z := r_vec.z
    let z2 := z * z
    let factor := -(3 / 2) * J2_EARTH * MU_EARTH * re2 / r5
    let ax := factor * r_vec.x * (1 - 5 * z2 / r2)
    let ay := factor * r_vec.y * (1 - 5 * z2 / r2)
    let az := factor * r_vec.z * (3 - 5 * z2 / r2)
    Vector3.new ax ay az

/-- VelocityVerletIntegrator::calculate_srp (solar radiation pressure). -/
def VelocityVerletIntegrator.calculate_srp (ops : Ops) (body : CelestialBody)
    (sun_position : Vector3) : Vector3 :=
  let r_vec := body.state.position.sub sun_position
  let r := r_vec.magnitude ops
  if r < 1 / 10 ^ 10 then Vector3.zero
  else
    let pressure := SOLAR_PRESSURE_1AU * (AU * AU) / (r * r)
    let mass := max body.mass 1
    let cr := 1 + body.reflectivity
    let accel_mag := pressure * body.cross_section_area * cr / mass
    (r_vec.normalize ops).scale accel_mag

/-- VelocityVerletIntegrator::calculate_yarkovsky (thermal recoil). -/
def VelocityVerletIntegrator.calculate_yarkovsky (ops : Ops) (body : CelestialBody)
    (sun_position : Vector3) : Vector3 :=
  if body.body_type ≠ BodyType.Asteroid then Vector3.zero
  else
    let r_vec := body.state.position.sub sun_position
    let r := r_vec.magnitude ops
    let r_au := r / AU
    if r < 1 / 10 ^ 10 ∨ r_au < 1 / 10 then Vector3.zero
    else
      let diameter := body.radius * 2
      if diameter < 1 then Vector3.zero
      else
        let subsolar_temp := ops.pow_quarter
          (SOLAR_LUMINOSITY / (16 * PI * STEFAN_BOLTZMANN * r * r))
        let volume := (4 / 3) * PI * body.radius ^ 3
        let density := if volume > 0 then body.mass / volume else DENSITY_DEFAULT
        let density2 := min (max density 1000) 8000
        let temp_term := SURFACE_EMISSIVITY * STEFAN_BOLTZMANN * subsolar_temp ^ 4
        let accel_mag := (4 / 9) * temp_term / (density2 * C * diameter)
        let radial := r_vec.normalize ops
        let tangent := (Vector3.new (-radial.y) radial.x 0).normalize ops
        tangent.scale accel_mag

/-- VelocityVerletIntegrator::calculate_acceleration: N-body gravity followed
by the enabled perturbations, summed in source order. -/
def VelocityVerletIntegrator.calculate_acceleration (cfg : VelocityVerletIntegrator)
    (ops : Ops) (body : CelestialBody) (all_bodies : List CelestialBody)
    (sun_position : Vector3) : Vector3 :=
  let gravity := all_bodies.foldl
    (fun total other =>
      if other.id = body.id then total
      else
        let r_vec := other.state.position.sub body.state.position
        let r := r_vec.magnitude ops
        if r > 1 / 10 ^ 10 then
          let mu := G * other.mass
          let accel_mag := mu / (r * r)
          total.add ((r_vec.normalize ops).scale accel_mag)
        else total)
    Vector3.zero
  let with_j2 :=
    if cfg.enable_j2 then
      match all_bodies.find? (fun b => b.id == "earth") with
      | some earth => gravity.add (VelocityVerletIntegrator.calculate_j2_perturbation ops body earth)
      | none => gravity
    else gravity
  let with_srp :=
    if cfg.enable_srp ∧ body.cross_section_area > 0 then
      with_j2.add (VelocityVerletIntegrator.calculate_srp ops body sun_position)
    else with_j2
  if cfg.enable_yarkovsky then
    with_srp.add (VelocityVerletIntegrator.calculate_yarkovsky ops body sun_position)
  else with_srp

/-- VelocityVerletIntegrator::step: one Velocity-Verlet tick.  The Rust code
loops over indices of a mutable slice; since every per-index update depends
only on the body at that index plus a whole frozen list (the original bodies
for the first acceleration pass, the position-updated bodies for the second),
the loops are rendered as maps over the list.  Star bodies are skipped by
every pass, exactly as the `continue` guards do. -/
def VelocityVerletIntegrator.step (cfg : VelocityVerletIntegrator) (ops : Ops)
    (bodies : List CelestialBody) (sun_position : Vector3) : List CelestialBody :=
  let dt := cfg.dt
  let dt_sq_half := dt * dt * (1 / 2)
  let accel0 := fun b => cfg.calculate_acceleration ops b bodies sun_position
  let posUpd := fun b =>
    { b with state := { b.state with
        position := ((b.state.position.add (b.state.velocity.scale dt)).add
          ((accel0 b).scale dt_sq_half)) } }
  let bodies1 := bodies.map (fun b => if b.body_type = BodyType.Star then b else posUpd b)
  let accel1 := fun b1 => cfg.calculate_acceleration ops b1 bodies1 sun_position
  bodies.map (fun b =>
    if b.body_type = BodyType.Star then b
    else
      let a0 := accel0 b
      let b1 := posUpd b
      let avg_accel := ((a0.add (accel1 b1)).scale (1 / 2))
      { b1 with state := { b1.state with
          velocity := b1.state.velocity.add (avg_accel.scale dt) } })

/-- Iterated application of VelocityVerletIntegrator::step. -/
def stepN (cfg : VelocityVerletIntegrator) (ops : Ops) (sun_position : Vector3) :
    ℕ → List CelestialBody → List CelestialBody
  | 0, bodies => bodies
  | n + 1, bodies => stepN cfg ops sun_position n (cfg.step ops bodies sun_position)

/-- Struct MonteCarloResult. -/
structure MonteCarloResult where
  num_runs : ℕ
  num_impacts : ℕ
  impact_probability : ℚ
  mean_moid : ℚ
  std_moid : ℚ
  min_moid : ℚ
  palermo_scale : ℚ
deriving DecidableEq

/-- Closure next_random of monte_carlo_impact_probability: one 64-bit LCG
update (wrapping mul by 1103515245, add 12345), output
((s >> 16) as f64) / 32768.0 * 2.0 - 1.0.  All arithmetic on the shifted
value is exact in f64 for every u64 state, so the rational model is exact.
Returns (output, new state). -/
def next_random (s : ℕ) : ℚ × ℕ :=
  let s1 := (s * 1103515245 + 12345) % 2 ^ 64
  ((((s1 / 2 ^ 16 : ℕ) : ℚ) / 32768) * 2 - 1, s1)

/-- Closure gaussian of monte_carlo_impact_probability: Box-Muller transform
driven by two next_random draws, with u1 guarded away from zero. -/
def gaussian (ops : Ops) (s : ℕ) (sigma : ℚ) : ℚ × ℕ :=
  let r1 := next_random s
  let r2 := next_random r1.2
  let u1 := (r1.1 + 1) / 2
  let u2 := (r2.1 + 1) / 2
  let u1m := max u1 (1 / 10 ^ 10)
  (sigma * ops.sqrt (-2 * ops.ln u1m) * ops.cos (2 * PI * u2), r2.2)

/-- Accumulator threaded through the Monte-Carlo run loop. -/
structure MCAcc where
  impacts : ℕ
  moid_sum : ℚ
  moid_sq_sum : ℚ
  min_moid : ℚ
  seed : ℕ
deriving DecidableEq

/-- Inner propagation loop of one Monte-Carlo run: two-body leapfrog around
the Sun with dt = 3600 s, tracking the closest approach to Earth's circular
1-AU analytic position; `fuel` is the remaining step budget, `k` the current
step index.  Returns (closest approach, impacted?).  The three `break`
points of the source map onto the three early returns. -/
def mcInnerGo (ops : Ops) (earth_radius : ℚ) : ℕ → ℕ → Vector3 → Vector3 → ℚ → ℚ × Bool
  | 0, _, _, _, closest => (closest, false)
  | fuel + 1, k, pos, vel, closest =>
    let dt : ℚ := 3600
    let r := pos.magnitude ops
    if r < 10 ^ 6 then (closest, false)
    else
      let accel_mag := MU_SUN / (r * r)
      let accel := (pos.normalize ops).scale (-accel_mag)
      let vel1 := vel.add (accel.scale (dt / 2))
      let pos1 := pos.add (vel1.scale dt)
      let r_new := pos1.magnitude ops
      if r_new < 10 ^ 6 then (closest, false)
      else
        let accel_new := (pos1.normalize ops).scale (-(MU_SUN / (r_new * r_new)))
        let vel2 := vel1.add (accel_new.scale (dt / 2))
        let t := (k : ℚ) * dt
        let earth_period := (1461 / 4 : ℚ) * 86400
        let earth_angle := 2 * PI * t / earth_period
        let earth_pos := Vector3.new (AU * ops.cos earth_angle) (AU * ops.sin earth_angle) 0
        let dist_to_earth := (pos1.sub earth_pos).magnitude ops
        let closest1 := if dist_to_earth < closest then dist_to_earth else closest
        if dist_to_earth < earth_radius then (closest1, true)
        else mcInnerGo ops earth_radius fuel (k + 1) pos1 vel2 closest1

/-- One iteration of the Monte-Carlo run loop: draw six Gaussian
perturbations, propagate, and fold the run's closest approach into the
accumulator. -/
def mcRunOnce (ops : Ops) (astPos astVel : Vector3)
    (position_uncertainty velocity_uncertainty : ℚ) (steps : ℕ) (earth_radius : ℚ)
    (acc : MCAcc) : MCAcc :=
  let sigma_pos := position_uncertainty / 3
  let g1 := gaussian ops acc.seed sigma_pos
  let g2 := gaussian ops g1.2 sigma_pos
  let g3 := gaussian ops g2.2 sigma_pos
  let perturbed_pos := Vector3.new (astPos.x + g1.1) (astPos.y + g2.1) (astPos.z + g3.1)
  let sigma_vel := velocity_uncertainty / 3
  let g4 := gaussian ops g3.2 sigma_vel
  let g5 := gaussian ops g4.2 sigma_vel
  let g6 := gaussian ops g5.2 sigma_vel
  let perturbed_vel := Vector3.new (astVel.x + g4.1) (astVel.y + g5.1) (astVel.z + g6.1)
  let run := mcInnerGo ops earth_radius steps 0 perturbed_pos perturbed_vel F64_MAX
  let moid_km := run.1 / 1000
  { impacts := acc.impacts + (if run.2 then 1 else 0)
    moid_sum := acc.moid_sum + moid_km
    moid_sq_sum := acc.moid_sq_sum + moid_km * moid_km
    min_moid := if moid_km < acc.min_moid then moid_km else acc.min_moid
    seed := g6.2 }

/-- The Monte-Carlo run loop, `n` runs threading the accumulator. -/
def mcRuns (ops : Ops) (astPos astVel : Vector3)
    (position_uncertainty velocity_uncertainty : ℚ) (steps : ℕ) (earth_radius : ℚ) :
    ℕ → MCAcc → MCAcc
  | 0, acc => acc
  | n + 1, acc => mcRuns ops astPos astVel position_uncertainty velocity_uncertainty steps
      earth_radius n
      (mcRunOnce ops astPos astVel position_uncertainty velocity_uncertainty steps earth_radius acc)

/-- Function monte_carlo_impact_probability: hash-seeded LCG, Gaussian
sampling of the state, two-body propagation per run, and aggregate
statistics with the Palermo scale. -/
def monte_carlo_impact_probability (ops : Ops) (asteroid : CelestialBody)
    (position_uncertainty velocity_uncertainty : ℚ) (num_runs : ℕ)
    (simulation_days earth_radius : ℚ) : MonteCarloResult :=
  let seed := ops.hashString asteroid.id % 2 ^ 64
  let steps := (⌊simulation_days * 86400 / 3600⌋).toNat
  let acc := mcRuns ops asteroid.state.position asteroid.state.velocity
    position_uncertainty velocity_uncertainty steps earth_radius num_runs
    ⟨0, 0, 0, F64_MAX, seed⟩
  let impact_probability := (acc.impacts : ℚ) / (num_runs : ℚ)
  let mean_moid := acc.moid_sum / (num_runs : ℚ)
  let variance := acc.moid_sq_sum / (num_runs : ℚ) - mean_moid * mean_moid
  let std_moid := ops.sqrt (max variance 0)
  let years := simulation_days / (1461 / 4)
  let background_rate := (1 / 10 ^ 8) * years
  let palermo_scale :=
    if impact_probability > 0 then ops.log10 (impact_probability / background_rate)
    else -10
  { num_runs := num_runs
    num_impacts := acc.impacts
    impact_probability := impact_probability
    mean_moid := mean_moid
    std_moid := std_moid
    min_moid := acc.min_moid
    palermo_scale := palermo_scale }

/-- Pairwise potential-energy contribution of one body against a tail of the
body list (the inner `j` loop of calculate_total_energy). -/
def potentialAgainst (ops : Ops) (b : CelestialBody) (rest : List CelestialBody) : ℚ :=
  rest.foldl
    (fun p o =>
      let r := (b.state.position.sub o.state.position).magnitude ops
      if r > 1 / 10 ^ 10 then p - G * b.mass * o.mass / r else p)
    0

/-- The double pair loop of calculate_total_energy. -/
def potentialSum (ops : Ops) : List CelestialBody → ℚ
  | [] => 0
  | b :: rest => potentialAgainst ops b rest + potentialSum ops rest

/-- Function calculate_total_energy: kinetic plus pairwise potential energy. -/
def calculate_total_energy (ops : Ops) (bodies : List CelestialBody) : ℚ :=
  let kinetic := bodies.foldl
    (fun k b =>
      let v := b.state.velocity.magnitude ops
      k + (1 / 2) * b.mass * v * v)
    0
  kinetic + potentialSum ops bodies

/-- Struct SimulationState. -/
structure SimulationState where
  bodies : List CelestialBody
  time : ℚ
  julian_date : ℚ
  dt : ℚ
  time_scale : ℚ
  is_paused : Bool
  total_energy : ℚ
  initial_energy : ℚ
deriving DecidableEq

/-- SimulationState::new: Sun, Earth, Moon, baseline energy, paused. -/
def SimulationState.new (ops : Ops) (julian_date : ℚ) : SimulationState :=
  let earth := CelestialBody.earth ops julian_date
  let moon := CelestialBody.moon ops earth.state julian_date
  let bodies := [CelestialBody.sun, earth, moon]
  let initial_energy := calculate_total_energy ops bodies
  { bodies := bodies
    time := 0
    julian_date := julian_date
    dt := 3600
    time_scale := 86400
    is_paused := true
    total_energy := initial_energy
    initial_energy := initial_energy }

/-- SimulationState::add_asteroid: append an Asteroid built from elements and
an estimated diameter (mass from 2000 kg/m^3 density). -/
def SimulationState.add_asteroid (s : SimulationState) (ops : Ops) (id name : String)
    (elements : OrbitalElements) (estimated_diameter : ℚ) : SimulationState :=
  let state := elements.to_state_vector ops MU_SUN
  let radius := estimated_diameter / 2
  let volume := (4 / 3) * PI * radius ^ 3
  let mass := 2000 * volume
  let body : CelestialBody :=
    { id := id
      name := name
      mass := mass
      radius := radius
      state := state
      body_type := BodyType.Asteroid
      cross_section_area := PI * radius * radius
      reflectivity := 1 / 10 }
  { s with bodies := s.bodies ++ [body] }

/-- Mutation of the body list performed by apply_impulse: the first body with
a matching id gets delta_v added to its velocity (iter_mut().find). -/
def applyImpulseBodies (body_id : String) (delta_v : Vector3) :
    List CelestialBody → List CelestialBody
  | [] => []
  | b :: rest =>
    if b.id = body_id then
      { b with state := { b.state with velocity := b.state.velocity.add delta_v } } :: rest
    else b :: applyImpulseBodies body_id delta_v rest

/-- SimulationState::apply_impulse: kinetic-impactor delta-v on a named body,
a no-op when no body matches. -/
def SimulationState.apply_impulse (s : SimulationState) (body_id : String)
    (delta_v : Vector3) : SimulationState :=
  { s with bodies := applyImpulseBodies body_id delta_v s.bodies }

/-- Distances between all body pairs (i, j) with i < j, in the scan order of
the nested index loops of calculate_adaptive_dt. -/
def pairDistances (ops : Ops) : List CelestialBody → List ℚ
  | [] => []
  | b :: rest =>
    rest.map (fun b2 => (b.state.position.sub b2.state.position).magnitude ops)
      ++ pairDistances ops rest

/-- Loop body of calculate_adaptive_dt for one pair distance: when the
separation is below 100 Earth radii, lower the running minimum to
base_dt times the scaling factor (distance over 100 Earth radii, floored
at 0.01). -/
def adaptiveStep (base_dt m distance : ℚ) : ℚ :=
  if distance < R_EARTH * 100 then
    min m (base_dt * max (distance / (R_EARTH * 100)) (1 / 100))
  else m

/-- Core of calculate_adaptive_dt as a function of the list of pair
distances: fold the close-pair scaling over the pairs, then clamp the
result between 1 and the base timestep. -/
def adaptiveDtOfDistances (ds : List ℚ) (base_dt : ℚ) : ℚ :=
  min (max (ds.foldl (adaptiveStep base_dt) base_dt) 1) base_dt

/-- SimulationState::calculate_adaptive_dt: scan all body pairs, scale the
base timestep for any separation below 100 Earth radii (factor floored at
0.01), clamp the result between 1 second and the base. -/
def SimulationState.calculate_adaptive_dt (s : SimulationState) (ops : Ops)
    (base_dt : ℚ) : ℚ :=
  adaptiveDtOfDistances (pairDistances ops s.bodies) base_dt

/-- Concrete instantiation of the abstract primitives, used only to evaluate
witnesses and counterexamples on closed inputs. -/
def opsZero : Ops :=
  { sqrt := fun _ => 0
    sin := fun _ => 0
    cos := fun _ => 0
    atan2 := fun _ _ => 0
    ln := fun _ => 0
    log10 := fun _ => 0
    pow_quarter := fun _ => 0
    hashString := fun _ => 0 }

/-- Concrete asteroid used by witnesses. -/
def bodyA : CelestialBody :=
  { id := "a"
    name := "A"
    mass := 10
    radius := 1
    state := ⟨⟨1, 2, 3⟩, ⟨4, 5, 6⟩⟩
    body_type := BodyType.Asteroid
    cross_section_area := 2
    reflectivity := 1 / 10 }

/-- Second concrete asteroid used by witnesses. -/
def bodyB : CelestialBody :=
  { id := "b"
    name := "B"
    mass := 20
    radius := 2
    state := ⟨⟨7, 8, 9⟩, ⟨1, 0, 0⟩⟩
    body_type := BodyType.Asteroid
    cross_section_area := 3
    reflectivity := 1 / 5 }

/-- Concrete two-body simulation state used by witnesses. -/
def stAB : SimulationState :=
  { bodies := [bodyA, bodyB]
    time := 5
    julian_date := 2451545
    dt := 3600
    time_scale := 86400
    is_paused := false
    total_energy := 42
    initial_energy := 7 }

/-- Concrete orbital elements used by witnesses. -/
def elems0 : OrbitalElements :=
  { semi_major_axis := AU
    eccentricity := 0
    inclination := 0
    longitude_ascending_node := 0
    argument_perihelion := 0
    mean_anomaly := 0
    epoch := 2451545 }

/-- Associativity of the componentwise Vector3 addition. -/
theorem Vector3.addAssoc (a b c : Vector3) : (a.add b).add c = a.add (b.add c) := by
  simp [Vector3.add, add_assoc]

/-- Two successive impulses on the same id collapse into one on the body
list, for any list. -/
theorem applyImpulseBodies_additive (body_id : String) (dv1 dv2 : Vector3)
    (l : List CelestialBody) :
    applyImpulseBodies body_id dv2 (applyImpulseBodies body_id dv1 l) =
      applyImpulseBodies body_id (dv1.add dv2) l := by
  induction l with
  | nil => rfl
  | cons b rest ih =>
    by_cases h : b.id = body_id
    · simp [applyImpulseBodies, h, Vector3.addAssoc]
    · simp [applyImpulseBodies, h, ih]

/-- The impulse mutation leaves a list alone when no element's id matches. -/
theorem applyImpulseBodies_no_match (body_id : String) (dv : Vector3)
    (l : List CelestialBody) (h : ∀ b ∈ l, b.id ≠ body_id) :
    applyImpulseBodies body_id dv l = l := by
  induction l with
  | nil => rfl
  | cons b rest ih =>
    have hb : b.id ≠ body_id := h b (List.mem_cons_self b rest)
    simp [applyImpulseBodies, hb, ih (fun x hx => h x (List.mem_cons_of_mem b hx))]

/-- The impulse mutation preserves list length. -/
theorem applyImpulseBodies_length (body_id : String) (dv : Vector3)
    (l : List CelestialBody) : (applyImpulseBodies body_id dv l).length = l.length := by
  induction l with
  | nil => rfl
  | cons b rest ih =>
    by_cases h : b.id = body_id <;> simp [applyImpulseBodies, h, ih]

/-- The impulse mutation preserves every field other than the velocity at
each index, and preserves non-matching bodies entirely. -/
theorem applyImpulseBodies_getElem (body_id : String) (dv : Vector3) :
    ∀ (l : List CelestialBody) (i : ℕ) (b : CelestialBody), l[i]? = some b →
      ∃ b2, (applyImpulseBodies body_id dv l)[i]? = some b2 ∧
        b2.id = b.id ∧ b2.name = b.name ∧ b2.mass = b.mass ∧ b2.radius = b.radius ∧
        b2.body_type = b.body_type ∧ b2.cross_section_area = b.cross_section_area ∧
        b2.reflectivity = b.reflectivity ∧ b2.state.position = b.state.position ∧
        (b.id ≠ body_id → b2 = b)
  | [], i, b, h => by simp at h
  | b0 :: rest, 0, b, h => by
    have hb : b0 = b := by simpa using h
    subst hb
    by_cases h0 : b0.id = body_id
    · refine ⟨{ b0 with state := { b0.state with
        velocity := b0.state.velocity.add dv } }, ?_, by simp, by simp, by simp, by simp,
        by simp, by simp, by simp, by simp, fun hne => absurd h0 hne⟩
      simp [applyImpulseBodies, h0]
    · exact ⟨b0, by simp [applyImpulseBodies, h0], rfl, rfl, rfl, rfl, rfl, rfl, rfl, rfl,
        fun _ => rfl⟩
  | b0 :: rest, i + 1, b, h => by
    have h' : rest[i]? = some b := by simpa using h
    obtain ⟨b2, hb2, hprops⟩ := applyImpulseBodies_getElem body_id dv rest i b h'
    by_cases h0 : b0.id = body_id
    · exact ⟨b, by simpa [applyImpulseBodies, h0] using h', rfl, rfl, rfl, rfl, rfl, rfl,
        rfl, rfl, fun _ => rfl⟩
    · exact ⟨b2, by simpa [applyImpulseBodies, h0] using hb2, hprops⟩

/-- Claim C8: for every SimulationState containing a body with the given id
and all delta-v vectors dv1 and dv2, applying the impulses in sequence
yields the same state as a single impulse with dv1 + dv2 (exact-arithmetic
model of the f64 vector addition). -/
theorem apply_impulse_additive (s : SimulationState) (body_id : String)
    (dv1 dv2 : Vector3) (h : ∃ b ∈ s.bodies, b.id = body_id) :
    (s.apply_impulse body_id dv1).apply_impulse body_id dv2 =
      s.apply_impulse body_id (dv1.add dv2) := by
  simp [SimulationState.apply_impulse, applyImpulseBodies_additive]

/-- Witness for claim C8 at a concrete two-body state. -/
theorem apply_impulse_additive_witness :
    (∃ b ∈ stAB.bodies, b.id = "a") ∧
      (stAB.apply_impulse "a" ⟨1, 2, 3⟩).apply_impulse "a" ⟨4, 5, 6⟩ =
        stAB.apply_impulse "a" (Vector3.add ⟨1, 2, 3⟩ ⟨4, 5, 6⟩) :=
  ⟨by decide, apply_impulse_additive stAB "a" ⟨1, 2, 3⟩ ⟨4, 5, 6⟩ (by decide)⟩

/-- Claim C9: apply_impulse with an id matching no body leaves the whole
state unchanged and raises no error. -/
theorem apply_impulse_unknown_noop (s : SimulationState) (body_id : String)
    (dv : Vector3) (h : ∀ b ∈ s.bodies, b.id ≠ body_id) :
    s.apply_impulse body_id dv = s := by
  simp [SimulationState.apply_impulse, applyImpulseBodies_no_match body_id dv s.bodies h]

/-- Witness for claim C9 at a concrete state and unknown id. -/
theorem apply_impulse_unknown_noop_witness :
    (∀ b ∈ stAB.bodies, b.id ≠ "zzz") ∧ stAB.apply_impulse "zzz" ⟨1, 1, 1⟩ = stAB :=
  ⟨by decide, apply_impulse_unknown_noop stAB "zzz" ⟨1, 1, 1⟩ (by decide)⟩

/-- Claim C10: apply_impulse touches only the matched body's velocity: every
scalar field of the state, the list length, and at every index the id,
name, mass, radius, type, cross-section, reflectivity and position are
unchanged, and bodies whose id differs from the target are unchanged
entirely. -/
theorem apply_impulse_frame (s : SimulationState) (body_id : String) (dv : Vector3)
    (i : ℕ) (b b2 : CelestialBody) (h1 : s.bodies[i]? = some b)
    (h2 : (s.apply_impulse body_id dv).bodies[i]? = some b2) :
    (s.apply_impulse body_id dv).time = s.time ∧
    (s.apply_impulse body_id dv).julian_date = s.julian_date ∧
    (s.apply_impulse body_id dv).dt = s.dt ∧
    (s.apply_impulse body_id dv).time_scale = s.time_scale ∧
    (s.apply_impulse body_id dv).is_paused = s.is_paused ∧
    (s.apply_impulse body_id dv).total_energy = s.total_energy ∧
    (s.apply_impulse body_id dv).initial_energy = s.initial_energy ∧
    (s.apply_impulse body_id dv).bodies.length = s.bodies.length ∧
    b2.id = b.id ∧ b2.name = b.name ∧ b2.mass = b.mass ∧ b2.radius = b.radius ∧
    b2.body_type = b.body_type ∧ b2.cross_section_area = b.cross_section_area ∧
    b2.reflectivity = b.reflectivity ∧ b2.state.position = b.state.position ∧
    (b.id ≠ body_id → b2 = b) := by
  obtain ⟨b3, hb3, hprops⟩ := applyImpulseBodies_getElem body_id dv s.bodies i b h1
  have hb23 : b2 = b3 := by
    have : some b3 = some b2 := by
      rw [← hb3]
      exact h2
    exact (Option.some.inj this).symm
  subst hb23
  exact ⟨rfl, rfl, rfl, rfl, rfl, rfl, rfl,
    applyImpulseBodies_length body_id dv s.bodies, hprops⟩

/-- Witness for claim C10 at a concrete state, target id "a", index 1. -/
theorem apply_impulse_frame_witness :
    (stAB.apply_impulse "a" ⟨1, 1, 1⟩).time = stAB.time ∧
    (stAB.apply_impulse "a" ⟨1, 1, 1⟩).julian_date = stAB.julian_date ∧
    (stAB.apply_impulse "a" ⟨1, 1, 1⟩).dt = stAB.dt ∧
    (stAB.apply_impulse "a" ⟨1, 1, 1⟩).time_scale = stAB.time_scale ∧
    (stAB.apply_impulse "a" ⟨1, 1, 1⟩).is_paused = stAB.is_paused ∧
    (stAB.apply_impulse "a" ⟨1, 1, 1⟩).total_energy = stAB.total_energy ∧
    (stAB.apply_impulse "a" ⟨1, 1, 1⟩).initial_energy = stAB.initial_energy ∧
    (stAB.apply_impulse "a" ⟨1, 1, 1⟩).bodies.length = stAB.bodies.length ∧
    bodyB.id = bodyB.id ∧ bodyB.name = bodyB.name ∧ bodyB.mass = bodyB.mass ∧
    bodyB.radius = bodyB.radius ∧ bodyB.body_type = bodyB.body_type ∧
    bodyB.cross_section_area = bodyB.cross_section_area ∧
    bodyB.reflectivity = bodyB.reflectivity ∧
    bodyB.state.position = bodyB.state.position ∧
    (bodyB.id ≠ "a" → bodyB = bodyB) :=
  apply_impulse_frame stAB "a" ⟨1, 1, 1⟩ 1 bodyB bodyB rfl rfl

/-- Claim C2: the value the Monte-Carlo LCG produces from generator state 2
is 4323/4096, strictly greater than 1 — the code divides (s >> 16), which
ranges up to 2^48 - 1, by 32768 without the modulo reduction the spec and
the code's own range comment describe, so outputs escape [-1, 1]. -/
theorem next_random_escapes_interval : 1 < (next_random 2).1 := by
  norm_num [next_random]

/-- One integrator step leaves any Star body untouched: every pass of the
step skips bodies whose type is Star. -/
theorem step_preserves_star (cfg : VelocityVerletIntegrator) (ops : Ops)
    (bodies : List CelestialBody) (sun_position : Vector3) (i : ℕ) (b : CelestialBody)
    (hb : bodies[i]? = some b) (hstar : b.body_type = BodyType.Star) :
    (cfg.step ops bodies sun_position)[i]? = some b := by
  simp only [VelocityVerletIntegrator.step, List.getElem?_map, hb, Option.map_some']
  simp [hstar]

/-- Concrete integrator configuration used by witnesses. -/
def cfg0 : VelocityVerletIntegrator := ⟨3600, true, true, true⟩

/-- Claim C1: a body entry whose type is Star, id "sun" and state zero (as
produced by SimulationState::new for the Sun) is returned unchanged by any
number of Velocity-Verlet steps under any perturbation toggles, so it
retains exactly zero position and velocity. -/
theorem sun_unmoved_by_integrator (cfg : VelocityVerletIntegrator) (ops : Ops)
    (sun_position : Vector3) (bodies : List CelestialBody) (n i : ℕ) (b : CelestialBody)
    (hb : bodies[i]? = some b) (hid : b.id = "sun") (hstar : b.body_type = BodyType.Star)
    (hz : b.state = StateVector.zero) :
    (stepN cfg ops sun_position n bodies)[i]? = some b ∧
      b.state.position = Vector3.zero ∧ b.state.velocity = Vector3.zero := by
  have main : ∀ (m : ℕ) (bs : List CelestialBody), bs[i]? = some b →
      (stepN cfg ops sun_position m bs)[i]? = some b := by
    intro m
    induction m with
    | zero => intro bs h; exact h
    | succ m ih =>
      intro bs h
      exact ih _ (step_preserves_star cfg ops bs sun_position i b h hstar)
  exact ⟨main n bodies hb, by rw [hz]; rfl, by rw [hz]; rfl⟩

/-- Witness for claim C1: two steps on the singleton list holding the Sun. -/
theorem sun_unmoved_by_integrator_witness :
    (stepN cfg0 opsZero Vector3.zero 2 [CelestialBody.sun])[0]? = some CelestialBody.sun ∧
      CelestialBody.sun.state.position = Vector3.zero ∧
      CelestialBody.sun.state.velocity = Vector3.zero :=
  sun_unmoved_by_integrator cfg0 opsZero Vector3.zero [CelestialBody.sun] 2 0
    CelestialBody.sun rfl rfl rfl rfl

/-- The three bodies of a fresh SimulationState carry ids sun, earth, moon. -/
theorem new_ids (ops : Ops) (julian_date : ℚ) :
    (SimulationState.new ops julian_date).bodies.map (fun b => b.id) =
      ["sun", "earth", "moon"] := rfl

/-- add_asteroid appends exactly one id to the id list. -/
theorem add_asteroid_ids (s : SimulationState) (ops : Ops) (id name : String)
    (elements : OrbitalElements) (d : ℚ) :
    (s.add_asteroid ops id name elements d).bodies.map (fun b => b.id) =
      s.bodies.map (fun b => b.id) ++ [id] := by
  simp [SimulationState.add_asteroid]

/-- Counterexample to claim C3 as stated: add_asteroid performs no
duplicate-id check, so adding an asteroid with id "sun" to a fresh state
produces a body list whose ids are not pairwise distinct. -/
theorem add_asteroid_duplicate_id :
    ¬ (((SimulationState.new opsZero 2451545).add_asteroid opsZero "sun" "Sun dup"
        elems0 1000).bodies.map (fun b => b.id)).Pairwise (· ≠ ·) := by
  rw [add_asteroid_ids, new_ids]
  decide

/-- Claim C3 (amended): a fresh SimulationState has pairwise-distinct body
ids, and add_asteroid preserves pairwise-distinct ids provided the new id
differs from every id already present. -/
theorem add_asteroid_fresh_preserves_distinct_ids :
    (∀ (ops : Ops) (julian_date : ℚ),
      ((SimulationState.new ops julian_date).bodies.map (fun b => b.id)).Pairwise (· ≠ ·)) ∧
    ∀ (s : SimulationState) (ops : Ops) (id name : String) (elements : OrbitalElements)
      (d : ℚ),
      (s.bodies.map (fun b => b.id)).Pairwise (· ≠ ·) →
      (∀ b ∈ s.bodies, b.id ≠ id) →
      ((s.add_asteroid ops id name elements d).bodies.map (fun b => b.id)).Pairwise
        (· ≠ ·) := by
  constructor
  · intro ops julian_date
    rw [new_ids]
    decide
  · intro s ops id name elements d hnd hfresh
    rw [add_asteroid_ids, List.pairwise_append]
    refine ⟨hnd, List.pairwise_singleton _ _, ?_⟩
    intro a ha c hc
    rw [List.mem_singleton] at hc
    subst hc
    obtain ⟨b0, hb0, rfl⟩ := List.mem_map.mp ha
    exact hfresh b0 hb0

/-- Witness for claim C3: fresh state, then a genuinely new id. -/
theorem add_asteroid_fresh_preserves_distinct_ids_witness :
    (((SimulationState.new opsZero 2451545).bodies.map (fun b => b.id)).Pairwise (· ≠ ·)) ∧
      ((((SimulationState.new opsZero 2451545).add_asteroid opsZero "apophis" "Apophis"
          elems0 300).bodies.map (fun b => b.id)).Pairwise (· ≠ ·)) :=
  ⟨add_asteroid_fresh_preserves_distinct_ids.1 opsZero 2451545,
    add_asteroid_fresh_preserves_distinct_ids.2 (SimulationState.new opsZero 2451545)
      opsZero "apophis" "Apophis" elems0 300
      (by rw [new_ids]; decide)
      (by
        intro b hb
        have hmem : b.id ∈ ["sun", "earth", "moon"] := by
          rw [← new_ids opsZero 2451545]
          exact List.mem_map_of_mem _ hb
        intro hc
        rw [hc] at hmem
        simp at hmem)⟩

/-- Concrete empty-body simulation state used for the C6 counterexample. -/
def stEmpty : SimulationState :=
  { bodies := []
    time := 0
    julian_date := 0
    dt := 0
    time_scale := 0
    is_paused := true
    total_energy := 0
    initial_energy := 0 }

/-- Counterexample to claim C6 as stated: calculate_adaptive_dt clamps with
min against base_dt last, so for base_dt = 1/2 the result is 1/2, not in
the claimed interval bounded below by 1. -/
theorem calculate_adaptive_dt_below_one :
    ¬ (1 ≤ stEmpty.calculate_adaptive_dt opsZero (1 / 2)) := by
  have hval : stEmpty.calculate_adaptive_dt opsZero (1 / 2) = 1 / 2 := by
    show min (max ((1 : ℚ) / 2) 1) (1 / 2) = 1 / 2
    rw [max_eq_right (by norm_num : (1 : ℚ) / 2 ≤ 1)]
    exact min_eq_right (by norm_num)
  rw [hval]
  norm_num

/-- The adaptive-dt loop body is monotone in both the running minimum and
the pair distance, for a nonnegative base timestep. -/
theorem adaptiveStep_mono (base_dt : ℚ) (hb : 0 ≤ base_dt) {m1 m2 d1 d2 : ℚ}
    (hm : m1 ≤ m2) (hd : d1 ≤ d2) :
    adaptiveStep base_dt m1 d1 ≤ adaptiveStep base_dt m2 d2 := by
  have hK : (0 : ℚ) < R_EARTH * 100 := by norm_num [R_EARTH]
  unfold adaptiveStep
  by_cases h1 : d1 < R_EARTH * 100
  · by_cases h2 : d2 < R_EARTH * 100
    · rw [if_pos h1, if_pos h2]
      refine min_le_min hm (mul_le_mul_of_nonneg_left (max_le_max ?_ le_rfl) hb)
      exact (div_le_div_iff_of_pos_right hK).mpr hd
    · rw [if_pos h1, if_neg h2]
      exact le_trans (min_le_left _ _) hm
  · have h2 : ¬ d2 < R_EARTH * 100 := fun hc => h1 (lt_of_le_of_lt hd hc)
    rw [if_neg h1, if_neg h2]
    exact hm

/-- Folding the adaptive-dt loop body over pointwise-smaller distances from
a smaller start yields a smaller running minimum. -/
theorem adaptiveFold_mono (base_dt : ℚ) (hb : 0 ≤ base_dt) :
    ∀ {ds1 ds2 : List ℚ}, List.Forall₂ (· ≤ ·) ds1 ds2 → ∀ m1 m2 : ℚ, m1 ≤ m2 →
      ds1.foldl (adaptiveStep base_dt) m1 ≤ ds2.foldl (adaptiveStep base_dt) m2 := by
  intro ds1 ds2 h
  induction h with
  | nil => intro m1 m2 hm; simpa using hm
  | cons hd _ ih =>
    intro m1 m2 hm
    exact ih _ _ (adaptiveStep_mono base_dt hb hm hd)

/-- Claim C6 (amended): for base_dt at least 1 second, calculate_adaptive_dt
is bounded in [1, base_dt]; the adaptive core is monotone in the pair
distances (shrinking distances never increases the result); and for a
two-body state whose separation is below 100 Earth radii the result is the
base timestep scaled by the separation over 100 Earth radii, floored at
0.01 times the base and at 1 second. -/
theorem calculate_adaptive_dt_spec :
    (∀ (ops : Ops) (s : SimulationState) (base_dt : ℚ), 1 ≤ base_dt →
      1 ≤ s.calculate_adaptive_dt ops base_dt ∧
        s.calculate_adaptive_dt ops base_dt ≤ base_dt) ∧
    (∀ (base_dt : ℚ) (ds1 ds2 : List ℚ), 0 ≤ base_dt →
      List.Forall₂ (· ≤ ·) ds1 ds2 →
      adaptiveDtOfDistances ds1 base_dt ≤ adaptiveDtOfDistances ds2 base_dt) ∧
    (∀ (ops : Ops) (s : SimulationState) (b1 b2 : CelestialBody) (base_dt : ℚ),
      1 ≤ base_dt → s.bodies = [b1, b2] →
      (b1.state.position.sub b2.state.position).magnitude ops < R_EARTH * 100 →
      s.calculate_adaptive_dt ops base_dt =
        max 1 (base_dt *
          max ((b1.state.position.sub b2.state.position).magnitude ops / (R_EARTH * 100))
            (1 / 100))) := by
  refine ⟨?_, ?_, ?_⟩
  · intro ops s base_dt h
    unfold SimulationState.calculate_adaptive_dt adaptiveDtOfDistances
    exact ⟨le_min (le_max_right _ 1) h, min_le_right _ _⟩
  · intro base_dt ds1 ds2 hb h
    unfold adaptiveDtOfDistances
    exact min_le_min (max_le_max (adaptiveFold_mono base_dt hb h _ _ le_rfl) le_rfl) le_rfl
  · intro ops s b1 b2 base_dt hb hbodies hd
    have hK : (0 : ℚ) < R_EARTH * 100 := by norm_num [R_EARTH]
    have h0 : (0 : ℚ) ≤ base_dt := le_trans zero_le_one hb
    set d := (b1.state.position.sub b2.state.position).magnitude ops with hdd
    have hds : pairDistances ops s.bodies = [d] := by
      rw [hbodies]
      simp [pairDistances]
    have hf1 : max (d / (R_EARTH * 100)) (1 / 100) < 1 :=
      max_lt ((div_lt_one hK).mpr hd) (by norm_num)
    have hbf : base_dt * max (d / (R_EARTH * 100)) (1 / 100) ≤ base_dt :=
      mul_le_of_le_one_right h0 hf1.le
    unfold SimulationState.calculate_adaptive_dt
    rw [hds]
    show min (max (adaptiveStep base_dt base_dt d) 1) base_dt = _
    rw [adaptiveStep, if_pos hd, min_eq_right hbf]
    rcases le_total (base_dt * max (d / (R_EARTH * 100)) (1 / 100)) 1 with h1 | h1
    · rw [max_eq_right h1, min_eq_left hb, max_eq_left h1]
    · rw [max_eq_left h1, max_eq_right h1]
      exact min_eq_left hbf

/-- Witness for claim C6: the three components at concrete inputs. -/
theorem calculate_adaptive_dt_spec_witness :
    (1 ≤ stAB.calculate_adaptive_dt opsZero 2 ∧ stAB.calculate_adaptive_dt opsZero 2 ≤ 2) ∧
      (adaptiveDtOfDistances [1] 2 ≤ adaptiveDtOfDistances [2] 2) ∧
      stAB.calculate_adaptive_dt opsZero 2 =
        max 1 (2 * max
          ((bodyA.state.position.sub bodyB.state.position).magnitude opsZero /
            (R_EARTH * 100)) (1 / 100)) :=
  ⟨calculate_adaptive_dt_spec.1 opsZero stAB 2 (by norm_num),
    calculate_adaptive_dt_spec.2.1 2 [1] [2] (by norm_num)
      (List.Forall₂.cons (by norm_num) List.Forall₂.nil),
    calculate_adaptive_dt_spec.2.2 opsZero stAB bodyA bodyB 2 (by norm_num) rfl
      (by
        show opsZero.sqrt _ < R_EARTH * 100
        norm_num [opsZero, R_EARTH])⟩

/-- Claim C5: the Monte-Carlo analysis reads nothing of the asteroid beyond
its id (which seeds the LCG) and its state vector, and consumes no other
implicit input, so two invocations with identical id and state and
identical explicit parameters return identical aggregates. -/
theorem monte_carlo_deterministic (ops : Ops) (a1 a2 : CelestialBody)
    (position_uncertainty velocity_uncertainty : ℚ) (num_runs : ℕ)
    (simulation_days earth_radius : ℚ) (hid : a1.id = a2.id)
    (hst : a1.state = a2.state) :
    monte_carlo_impact_probability ops a1 position_uncertainty velocity_uncertainty
        num_runs simulation_days earth_radius =
      monte_carlo_impact_probability ops a2 position_uncertainty velocity_uncertainty
        num_runs simulation_days earth_radius := by
  unfold monte_carlo_impact_probability
  rw [hid, hst]

/-- Copy of bodyA with the same id and state but different name, mass,
radius and optical data. -/
def bodyA2 : CelestialBody :=
  { bodyA with name := "A mark two", mass := 999, radius := 3, cross_section_area := 7 }

/-- Witness for claim C5: two asteroids agreeing only in id and state. -/
theorem monte_carlo_deterministic_witness :
    monte_carlo_impact_probability opsZero bodyA 1 1 1 1 1 =
      monte_carlo_impact_probability opsZero bodyA2 1 1 1 1 1 :=
  monte_carlo_deterministic opsZero bodyA bodyA2 1 1 1 1 1 rfl rfl

/-- One Monte-Carlo run increments the impact counter by at most one. -/
theorem mcRunOnce_impacts_le (ops : Ops) (astPos astVel : Vector3) (pu vu : ℚ)
    (steps : ℕ) (earth_radius : ℚ) (acc : MCAcc) :
    (mcRunOnce ops astPos astVel pu vu steps earth_radius acc).impacts ≤
      acc.impacts + 1 := by
  have h : ∀ c : Bool, (if c then 1 else 0) ≤ 1 := by intro c; cases c <;> norm_num
  simpa [mcRunOnce] using Nat.add_le_add_left (h _) acc.impacts

/-- The Monte-Carlo run loop counts at most one impact per run. -/
theorem mcRuns_impacts_le (ops : Ops) (astPos astVel : Vector3) (pu vu : ℚ)
    (steps : ℕ) (earth_radius : ℚ) :
    ∀ (n : ℕ) (acc : MCAcc),
      (mcRuns ops astPos astVel pu vu steps earth_radius n acc).impacts ≤
        acc.impacts + n
  | 0, acc => le_of_eq (by simp [mcRuns])
  | n + 1, acc => by
    calc (mcRuns ops astPos astVel pu vu steps earth_radius (n + 1) acc).impacts
        ≤ (mcRunOnce ops astPos astVel pu vu steps earth_radius acc).impacts + n :=
          mcRuns_impacts_le ops astPos astVel pu vu steps earth_radius n _
      _ ≤ (acc.impacts + 1) + n :=
          Nat.add_le_add_right (mcRunOnce_impacts_le ops astPos astVel pu vu steps
            earth_radius acc) n
      _ = acc.impacts + (n + 1) := by omega

/-- The Palermo branch of the aggregate computation, for any impact count
not exceeding the run count: probability positive iff the count is
nonzero. -/
theorem palermoAux (ops : Ops) (impacts num_runs : ℕ) (x : ℚ)
    (hle : impacts ≤ num_runs) :
    (if ((impacts : ℚ) / (num_runs : ℚ)) > 0
      then ops.log10 ((impacts : ℚ) / (num_runs : ℚ) / x) else -10) =
      if impacts = 0 then -10
      else ops.log10 ((impacts : ℚ) / (num_runs : ℚ) / x) := by
  by_cases h : impacts = 0
  · subst h
    simp
  · have hn : 0 < num_runs := lt_of_lt_of_le (Nat.pos_of_ne_zero h) hle
    have hp : (0 : ℚ) < (impacts : ℚ) / (num_runs : ℚ) :=
      div_pos (by exact_mod_cast Nat.pos_of_ne_zero h) (by exact_mod_cast hn)
    rw [if_pos hp, if_neg h]

/-- Claim C7: the Palermo scale of a Monte-Carlo result is exactly -10 when
zero impacts were counted, and log10 of the impact probability over the
background rate 1e-8 per year times the horizon in years otherwise. -/
theorem palermo_scale_formula (ops : Ops) (asteroid : CelestialBody)
    (position_uncertainty velocity_uncertainty : ℚ) (num_runs : ℕ)
    (simulation_days earth_radius : ℚ) :
    (monte_carlo_impact_probability ops asteroid position_uncertainty
        velocity_uncertainty num_runs simulation_days earth_radius).palermo_scale =
      if (monte_carlo_impact_probability ops asteroid position_uncertainty
          velocity_uncertainty num_runs simulation_days earth_radius).num_impacts = 0
      then -10
      else ops.log10
        ((monte_carlo_impact_probability ops asteroid position_uncertainty
            velocity_uncertainty num_runs simulation_days earth_radius).impact_probability /
          ((1 / 10 ^ 8) * (simulation_days / (1461 / 4)))) := by
  unfold monte_carlo_impact_probability
  refine palermoAux ops _ num_runs _ ?_
  simpa using mcRuns_impacts_le ops asteroid.state.position asteroid.state.velocity
    position_uncertainty velocity_uncertainty
    ((⌊simulation_days * 86400 / 3600⌋).toNat) earth_radius num_runs
    ⟨0, 0, 0, F64_MAX, ops.hashString asteroid.id % 2 ^ 64⟩

end CosmoRisk
